import Mathlib

/-!
Verification development for the treasury-sentinel repository.

Each module of the repository that the checked claims touch is embedded
shallowly: TypeScript classes become Lean structures with explicit state
passing, JavaScript numbers used for budget arithmetic become `ℚ`,
bigint token amounts become `Int`, and the on-chain RPC surface becomes
an explicit `Chain` record supplying receipts and the current block.
Definitions come first, theorems afterwards.
-/

namespace Sentinel

namespace StateMachine

/-! Embedding of `src/state-machine/EscalationStateMachine.ts`.

Levels are the strings 'L0'..'L5' of that file's `LEVEL_ORDER`; costs are
its `ESCALATION_COSTS` table (per target level, in USDC). The class state
(`currentState.level`, `budgetLimit`, `budgetUsed`, `transitionHistory`)
is the `Machine` structure, and the two default guards installed by
`initializeDefaultGuards` are `budgetGuard` and `sequentialGuard`.
-/

inductive Level
  | L0
  | L1
  | L2
  | L3
  | L4
  | L5
deriving DecidableEq, Repr

def Level.idx : Level → Nat
  | .L0 => 0
  | .L1 => 1
  | .L2 => 2
  | .L3 => 3
  | .L4 => 4
  | .L5 => 5

/-- `LEVEL_ORDER[indexOf(level) + 1]`, used by `escalate` (guarded by
`currentIndex >= LEVEL_ORDER.length - 1` in the source, so the `L5` case
is never reached there). -/
def Level.next : Level → Level
  | .L0 => .L1
  | .L1 => .L2
  | .L2 => .L3
  | .L3 => .L4
  | .L4 => .L5
  | .L5 => .L5

/-- `LEVEL_ORDER[indexOf(level) - 1]`, used by `deescalate` (guarded by
`currentIndex <= 0` in the source, so the `L0` case is never reached). -/
def Level.prev : Level → Level
  | .L0 => .L0
  | .L1 => .L0
  | .L2 => .L1
  | .L3 => .L2
  | .L4 => .L3
  | .L5 => .L4

/-- The `ESCALATION_COSTS` record of `EscalationStateMachine.ts` (USDC). -/
def ESCALATION_COSTS : Level → ℚ
  | .L0 => 0
  | .L1 => 1/10
  | .L2 => 1/4
  | .L3 => 1/2
  | .L4 => 1
  | .L5 => 5/2

structure Transition where
  fromLevel : Level
  toLevel : Level
  cost : ℚ
deriving DecidableEq, Repr

structure Machine where
  level : Level
  budgetLimit : ℚ
  budgetUsed : ℚ
  history : List Transition
deriving DecidableEq, Repr

/-- The `budget_check` guard: `this.budgetUsed + cost <= this.budgetLimit`
where `cost = ESCALATION_COSTS[to]`. -/
def budgetGuard (m : Machine) (target : Level) : Bool :=
  decide (m.budgetUsed + ESCALATION_COSTS target ≤ m.budgetLimit)

/-- The `sequential_escalation` guard: `toIndex <= fromIndex + 1`. -/
def sequentialGuard (src target : Level) : Bool :=
  decide (target.idx ≤ src.idx + 1)

/-- `canTransitionTo`: both default guards must pass (the guard list for
every level is `[budgetGuard, sequentialGuard]`). -/
def canTransitionTo (m : Machine) (target : Level) : Bool :=
  budgetGuard m target && sequentialGuard m.level target

/-- `transitionTo`: on guard failure the state is returned unchanged; on
success the transition is appended to the history, the budget is charged
`ESCALATION_COSTS[target]`, and the level is updated. -/
def transitionTo (m : Machine) (target : Level) : Machine :=
  if canTransitionTo m target then
    { level := target
      budgetLimit := m.budgetLimit
      budgetUsed := m.budgetUsed + ESCALATION_COSTS target
      history := m.history ++ [{ fromLevel := m.level, toLevel := target, cost := ESCALATION_COSTS target }] }
  else m

/-- `escalate`: fails (state unchanged) at the maximum level, otherwise
delegates to `transitionTo` on the next level. -/
def escalate (m : Machine) : Machine :=
  if 5 ≤ m.level.idx then m else transitionTo m m.level.next

/-- `deescalate`: fails (state unchanged) at the minimum level, otherwise
delegates to `transitionTo` on the previous level. -/
def deescalate (m : Machine) : Machine :=
  if m.level.idx = 0 then m else transitionTo m m.level.prev

inductive Op
  | trans (target : Level)
  | escalate
  | deescalate
deriving DecidableEq, Repr

def stepOp (m : Machine) : Op → Machine
  | .trans t => transitionTo m t
  | .escalate => escalate m
  | .deescalate => deescalate m

def runOps (m : Machine) (ops : List Op) : Machine :=
  ops.foldl stepOp m

/-- The constructor: `budgetLimit`/`currentBudgetUsed` from the config,
initial level, empty history. -/
def initMachine (initialLevel : Level) (budgetLimit currentBudgetUsed : ℚ) : Machine :=
  { level := initialLevel
    budgetLimit := budgetLimit
    budgetUsed := currentBudgetUsed
    history := [] }

/-- `getTotalCost`: sum of the `cost` fields of the recorded transitions. -/
def getTotalCost (m : Machine) : ℚ :=
  (m.history.map Transition.cost).sum

/-- `getRemainingBudget`: `budgetLimit - budgetUsed`. -/
def getRemainingBudget (m : Machine) : ℚ :=
  m.budgetLimit - m.budgetUsed

end StateMachine

namespace Config

/-! Embedding of `src/state-machine/config.ts`: the `TRANSITION_CONFIGS`
table (from-level, to-level, guard name, label, optional USDC cost,
requiresPayment) and the `findTransition` / `getTransitionCost` lookups.
This module uses the seven-value level enumeration of that file. -/

inductive CfgLevel
  | L0_IDLE
  | L1_MONITOR
  | L2_ALERT
  | L3_MARKET_DATA
  | L4_CRITICAL
  | L5_EMERGENCY
  | BUDGET_BLOCKED
deriving DecidableEq, Repr

structure TransitionConfig where
  fromLevel : CfgLevel
  toLevel : CfgLevel
  guard : String
  label : String
  cost : Option ℚ
  requiresPayment : Bool
deriving DecidableEq, Repr

def TRANSITION_CONFIGS : List TransitionConfig := [
  { fromLevel := .L0_IDLE, toLevel := .L1_MONITOR, guard := "canStartMonitoring",
    label := "Start Monitoring", cost := none, requiresPayment := false },
  { fromLevel := .L1_MONITOR, toLevel := .L2_ALERT, guard := "shouldEscalateToAlert",
    label := "Risk Threshold Exceeded", cost := none, requiresPayment := false },
  { fromLevel := .L2_ALERT, toLevel := .L3_MARKET_DATA, guard := "shouldEscalateToMarketData",
    label := "Fetch Market Data", cost := some (1/2), requiresPayment := true },
  { fromLevel := .L3_MARKET_DATA, toLevel := .L4_CRITICAL, guard := "shouldEscalateToCritical",
    label := "Critical Threshold", cost := some 1, requiresPayment := true },
  { fromLevel := .L4_CRITICAL, toLevel := .L5_EMERGENCY, guard := "shouldEscalateToEmergency",
    label := "Emergency Protocol", cost := some 2, requiresPayment := true },
  { fromLevel := .L5_EMERGENCY, toLevel := .L4_CRITICAL, guard := "canDeescalateFromEmergency",
    label := "Stabilizing", cost := none, requiresPayment := false },
  { fromLevel := .L4_CRITICAL, toLevel := .L3_MARKET_DATA, guard := "canDeescalateFromCritical",
    label := "Risk Decreasing", cost := none, requiresPayment := false },
  { fromLevel := .L3_MARKET_DATA, toLevel := .L2_ALERT, guard := "canDeescalateFromMarketData",
    label := "Market Stable", cost := none, requiresPayment := false },
  { fromLevel := .L2_ALERT, toLevel := .L1_MONITOR, guard := "canDeescalateFromAlert",
    label := "Risk Normalized", cost := none, requiresPayment := false },
  { fromLevel := .L1_MONITOR, toLevel := .L0_IDLE, guard := "canStopMonitoring",
    label := "Stop Monitoring", cost := none, requiresPayment := false },
  { fromLevel := .L2_ALERT, toLevel := .BUDGET_BLOCKED, guard := "isBudgetExhausted",
    label := "Budget Exhausted", cost := none, requiresPayment := false },
  { fromLevel := .L3_MARKET_DATA, toLevel := .BUDGET_BLOCKED, guard := "isBudgetExhausted",
    label := "Budget Exhausted", cost := none, requiresPayment := false },
  { fromLevel := .L4_CRITICAL, toLevel := .BUDGET_BLOCKED, guard := "isBudgetExhausted",
    label := "Budget Exhausted", cost := none, requiresPayment := false },
  { fromLevel := .BUDGET_BLOCKED, toLevel := .L1_MONITOR, guard := "hasBudgetRestored",
    label := "Budget Restored", cost := none, requiresPayment := false }]

/-- `findTransition`: first table row matching the (from, to) pair. -/
def findTransition (src dst : CfgLevel) : Option TransitionConfig :=
  TRANSITION_CONFIGS.find? (fun t => t.fromLevel == src && t.toLevel == dst)

/-- `getTransitionCost`: `findTransition(from, to)?.cost ?? 0` (USDC). -/
def getTransitionCost (src dst : CfgLevel) : ℚ :=
  match findTransition src dst with
  | some t => t.cost.getD 0
  | none => 0

end Config

namespace Budget

/-! Embedding of the `BudgetEnforcer` class (spend ledger): config,
`getStateUnsafe`, `recordSpend`, `getStatus`. USDC amounts are `ℚ`. -/

structure EnforcerConfig where
  maxBudgetUSDC : ℚ
  warningThresholdPercent : ℚ
  criticalThresholdPercent : ℚ
  autoBlockEnabled : Bool
deriving DecidableEq, Repr

def DEFAULT_BUDGET_CONFIG : EnforcerConfig :=
  { maxBudgetUSDC := 10
    warningThresholdPercent := 80
    criticalThresholdPercent := 95
    autoBlockEnabled := true }

inductive BudgetState
  | HEALTHY
  | WARNING
  | CRITICAL
  | BUDGET_BLOCKED
deriving DecidableEq, Repr

structure BudgetEnforcer where
  config : EnforcerConfig
  spent : ℚ
deriving DecidableEq, Repr

/-- `getStateUnsafe`: classify `spent / maxBudgetUSDC * 100`. -/
def getStateUnsafe (e : BudgetEnforcer) : BudgetState :=
  let percentUsed := e.spent / e.config.maxBudgetUSDC * 100
  if 100 ≤ percentUsed then .BUDGET_BLOCKED
  else if e.config.criticalThresholdPercent ≤ percentUsed then .CRITICAL
  else if e.config.warningThresholdPercent ≤ percentUsed then .WARNING
  else .HEALTHY

/-- `recordSpend`: returns `false` (state untouched) when blocked or when
the spend would exceed the limit; otherwise adds the amount and returns
`true`. The source never throws here: every outcome is this tagged pair. -/
def recordSpend (e : BudgetEnforcer) (amount : ℚ) : Bool × BudgetEnforcer :=
  if getStateUnsafe e = .BUDGET_BLOCKED then (false, e)
  else if e.config.maxBudgetUSDC < e.spent + amount then (false, e)
  else (true, { e with spent := e.spent + amount })

structure EnforcerStatus where
  spent : ℚ
  remaining : ℚ
  percentUsed : ℚ
  state : BudgetState
  isBlocked : Bool
deriving DecidableEq, Repr

/-- `getStatus`: reported view; `remaining = max(0, max - spent)`. -/
def getStatus (e : BudgetEnforcer) : EnforcerStatus :=
  { spent := e.spent
    remaining := max 0 (e.config.maxBudgetUSDC - e.spent)
    percentUsed := e.spent / e.config.maxBudgetUSDC * 100
    state := getStateUnsafe e
    isBlocked := decide (getStateUnsafe e = .BUDGET_BLOCKED) }

/-- A sequence of `recordSpend` calls (results discarded). -/
def runSpends (e : BudgetEnforcer) (amounts : List ℚ) : BudgetEnforcer :=
  amounts.foldl (fun acc a => (recordSpend acc a).2) e

end Budget

namespace PayBudget

/-! Embedding of `src/config/budget.ts`: the `BUDGET_LIMITS` constants and
the safe rounded arithmetic (`Math.round(x * 1e6) / 1e6`, which on `ℚ`
is `round6`), `getRemainingBudget` and `canAffordPayment`. -/

structure BudgetLimits where
  DEMO_BUDGET_USDC : ℚ
  WARNING_THRESHOLD : ℚ
  CRITICAL_THRESHOLD : ℚ
  MINIMUM_RESERVE : ℚ
  MAX_SINGLE_PAYMENT : ℚ
deriving DecidableEq, Repr

def BUDGET_LIMITS : BudgetLimits :=
  { DEMO_BUDGET_USDC := 10
    WARNING_THRESHOLD := 8/10
    CRITICAL_THRESHOLD := 95/100
    MINIMUM_RESERVE := 1/100
    MAX_SINGLE_PAYMENT := 2 }

/-- `Math.round(q * 1000000) / 1000000` (JavaScript `Math.round` is
round-half-up, which is Mathlib's `round` on `ℚ`). -/
def round6 (q : ℚ) : ℚ :=
  ((round (q * 1000000) : ℤ) : ℚ) / 1000000

/-- `safeSubtract`: rounded difference clamped at zero. -/
def safeSubtract (a b : ℚ) : ℚ :=
  max 0 (round6 (a - b))

/-- `safeAdd`: rounded sum. -/
def safeAdd (a b : ℚ) : ℚ :=
  round6 (a + b)

def getRemainingBudget (spent : ℚ) (total : ℚ) : ℚ :=
  safeSubtract total spent

/-- `canAffordPayment`: rejects non-positive amounts and amounts above
`MAX_SINGLE_PAYMENT`; otherwise requires
`remaining ≥ safeAdd(amount, MINIMUM_RESERVE)`. -/
def canAffordPayment (spent paymentAmount total : ℚ) : Bool :=
  if paymentAmount ≤ 0 then false
  else if BUDGET_LIMITS.MAX_SINGLE_PAYMENT < paymentAmount then false
  else decide (safeAdd paymentAmount BUDGET_LIMITS.MINIMUM_RESERVE ≤ getRemainingBudget spent total)

/-- A quantity that is a whole number of micro-USDC; `validatePaymentAmount`
in the source rejects anything finer. -/
def isMicroUSDC (q : ℚ) : Prop :=
  ∃ k : ℤ, q = (k : ℚ) / 1000000

end PayBudget

namespace Payments402

/-! Embedding of `src/services/payments/Http402Handler.ts`:
`createPaymentRequest` mints an invoice whose `expiresAt` is the creation
time plus a hard-coded `5 * 60 * 1000` milliseconds. -/

structure PaymentRequest where
  requestId : String
  endpoint : String
  requiredAmount : ℚ
  recipientAddress : String
  expiresAt : Int
deriving DecidableEq, Repr

/-- `createPaymentRequest` (times in ms since epoch). -/
def createPaymentRequest (recipientAddress endpoint : String) (amountUSDC : ℚ)
    (requestId : String) (now : Int) : PaymentRequest :=
  { requestId := requestId
    endpoint := endpoint
    requiredAmount := amountUSDC
    recipientAddress := recipientAddress
    expiresAt := now + 5 * 60 * 1000 }

end Payments402

namespace Kaiko

/-! Embedding of the `KaikoGateway`'s simulated 402 invoice
(`create402Response`): its `expiresAt` is the creation time plus a
hard-coded `15 * 60 * 1000` milliseconds. -/

structure KaikoPaymentRequired where
  statusCode : Nat
  requiredAmountUsdc : ℚ
  paymentAddress : String
  invoiceId : String
  expiresAt : Int
  dataEndpoint : String
deriving DecidableEq, Repr

/-- `create402Response` (times in ms since epoch; the source generates
`invoiceId` from the clock and a random suffix, here a parameter). -/
def create402Response (paymentWalletAddress : String) (amount : ℚ)
    (endpoint : String) (invoiceId : String) (now : Int) : KaikoPaymentRequired :=
  { statusCode := 402
    requiredAmountUsdc := amount
    paymentAddress := paymentWalletAddress
    invoiceId := invoiceId
    expiresAt := now + 15 * 60 * 1000
    dataEndpoint := endpoint }

end Kaiko

namespace Settlement

/-! Embedding of `src/services/settlement/SettlementVerifier.ts` and its
`types.ts`. The RPC surface (`eth_getTransactionReceipt`,
`eth_blockNumber`) is a `Chain` record; log `data` carries the already
decoded bigint amount (`BigInt(log.data)`). The verifier instance state
(the `pendingSettlements` map and the `verifiedTransactions` set) is the
`VerifierState` structure, threaded explicitly. -/

def TRANSFER_EVENT_SIGNATURE : String :=
  "0xddf252ad1be2c89b69c2b068fc378daa952ba7f163c4a11628f55a4df523b3ef"

def BASE_USDC_ADDRESS : String := "0x833589fCD6eDb6E08f4c7C32D4f71b54bdA02913"

structure SettlementConfig where
  usdcContractAddress : String
  receiverAddress : String
  confirmationBlocks : Int
deriving DecidableEq, Repr

/-- The defaulted part of `DEFAULT_SETTLEMENT_CONFIG` in `types.ts`. -/
structure SettlementDefaults where
  usdcContractAddress : String
  confirmationBlocks : Int
  timeoutMs : Int
deriving DecidableEq, Repr

def DEFAULT_SETTLEMENT_CONFIG : SettlementDefaults :=
  { usdcContractAddress := BASE_USDC_ADDRESS
    confirmationBlocks := 3
    timeoutMs := 120000 }

structure EthLog where
  address : String
  topics : List String
  data : Int
  transactionHash : String
  blockNumber : Int
deriving DecidableEq, Repr

/-- A transaction receipt. `SettlementVerifier.verifyTransaction` never
reads the `status` field; it is carried so that the claimed
status-must-be-success condition can even be stated. -/
structure EthReceipt where
  status : String
  blockNumber : Int
  logs : List EthLog
deriving DecidableEq, Repr

structure TransferEvent where
  transactionHash : String
  blockNumber : Int
  fromAddr : String
  toAddr : String
  amount : Int
deriving DecidableEq, Repr

/-- The chain as seen over RPC: receipts by hash and the current block. -/
structure Chain where
  receiptFor : String → Option EthReceipt
  currentBlock : Int

/-- JavaScript `.toLowerCase()`, written structurally over the character
list so that concrete instances evaluate (core `String.toLower` is the
same character map, but by well-founded recursion). -/
def lowerStr (s : String) : String :=
  ⟨s.data.map Char.toLower⟩

/-- JavaScript `.slice(n)` on an ASCII string. -/
def dropStr (s : String) (n : Nat) : String :=
  ⟨s.data.drop n⟩

/-- `parseTransferEvents`: keep logs on the configured USDC contract whose
topic 0 is the ERC-20 Transfer signature; addresses are the last 40 hex
chars of topics 1 and 2 (`'0x' + topic.slice(26)`). -/
def parseTransferEvents (cfg : SettlementConfig) (logs : List EthLog) : List TransferEvent :=
  (logs.filter fun l =>
      lowerStr l.address == lowerStr cfg.usdcContractAddress &&
        (l.topics.getD 0 "") == TRANSFER_EVENT_SIGNATURE).map fun l =>
    { transactionHash := l.transactionHash
      blockNumber := l.blockNumber
      fromAddr := "0x" ++ dropStr (l.topics.getD 1 "") 26
      toAddr := "0x" ++ dropStr (l.topics.getD 2 "") 26
      amount := l.data }

structure SettlementVerification where
  transactionHash : String
  verified : Bool
  amount : Int
  sender : String
  blockNumber : Int
  confirmations : Int
  error : Option String
deriving DecidableEq, Repr

/-- `verifyTransaction`: receipt lookup, first USDC transfer to the
configured receiver, confirmations = current block − receipt block,
verified iff confirmations reach `confirmationBlocks`. -/
def verifyTransaction (cfg : SettlementConfig) (chain : Chain)
    (transactionHash : String) : SettlementVerification :=
  match chain.receiptFor transactionHash with
  | none =>
    { transactionHash := transactionHash, verified := false, amount := 0, sender := "",
      blockNumber := 0, confirmations := 0, error := some "Transaction not found" }
  | some receipt =>
    match (parseTransferEvents cfg receipt.logs).find?
        (fun t => lowerStr t.toAddr == lowerStr cfg.receiverAddress) with
    | none =>
      { transactionHash := transactionHash, verified := false, amount := 0, sender := "",
        blockNumber := receipt.blockNumber, confirmations := 0,
        error := some "No USDC transfer to receiver found" }
    | some t =>
      { transactionHash := transactionHash
        verified := decide (cfg.confirmationBlocks ≤ chain.currentBlock - receipt.blockNumber)
        amount := t.amount
        sender := t.fromAddr
        blockNumber := receipt.blockNumber
        confirmations := chain.currentBlock - receipt.blockNumber
        error := none }

/-- The source's `SettlementStatus` union together with the `'DETECTING'`
value that `verifyPendingSettlement` assigns. -/
inductive SettlementStatus
  | PENDING
  | DETECTED
  | DETECTING
  | CONFIRMING
  | VERIFIED
  | EXPIRED
  | FAILED
deriving DecidableEq, Repr

structure PendingSettlement where
  id : String
  expectedAmount : Int
  expectedSender : String
  paymentId : String
  createdAt : Int
  expiresAt : Int
  status : SettlementStatus
  verification : Option SettlementVerification
deriving DecidableEq, Repr

structure SettlementResult where
  success : Bool
  settlementId : String
  status : SettlementStatus
  verification : Option SettlementVerification
  error : Option String
deriving DecidableEq, Repr

structure VerifierState where
  pendingSettlements : List (String × PendingSettlement)
  verifiedTransactions : List String
deriving DecidableEq, Repr

def lookupPending (st : VerifierState) (settlementId : String) : Option PendingSettlement :=
  (st.pendingSettlements.find? (fun p => p.1 == settlementId)).map Prod.snd

/-- In-place mutation of the map entry (`pending.status = ...`). -/
def setPending (st : VerifierState) (settlementId : String) (p : PendingSettlement) :
    VerifierState :=
  { st with
    pendingSettlements :=
      st.pendingSettlements.map fun q => if q.1 == settlementId then (q.1, p) else q }

/-- `verifyPendingSettlement`: existence, expiry, double-spend check,
on-chain verification, amount check, optional sender check, then success
(mark VERIFIED, store the verification, consume the tx hash). The
interpolated error messages are kept as their static prefixes. -/
def verifyPendingSettlement (cfg : SettlementConfig) (chain : Chain) (now : Int)
    (st : VerifierState) (settlementId transactionHash : String) :
    SettlementResult × VerifierState :=
  match lookupPending st settlementId with
  | none =>
    ({ success := false, settlementId := settlementId, status := .FAILED,
       verification := none, error := some "Settlement not found" }, st)
  | some pending =>
    if pending.expiresAt < now then
      ({ success := false, settlementId := settlementId, status := .EXPIRED,
         verification := none, error := some "Settlement expired" },
       setPending st settlementId { pending with status := .EXPIRED })
    else if transactionHash ∈ st.verifiedTransactions then
      ({ success := false, settlementId := settlementId, status := .FAILED,
         verification := none,
         error := some "Transaction already used for another settlement" }, st)
    else
      let verification := verifyTransaction cfg chain transactionHash
      if verification.verified then
        if verification.amount < pending.expectedAmount then
          ({ success := false, settlementId := settlementId, status := .FAILED,
             verification := some verification, error := some "Insufficient amount" },
           setPending st settlementId { pending with status := .FAILED })
        else if pending.expectedSender ≠ "" ∧
            lowerStr verification.sender ≠ lowerStr pending.expectedSender then
          ({ success := false, settlementId := settlementId, status := .FAILED,
             verification := some verification, error := some "Sender mismatch" },
           setPending st settlementId { pending with status := .FAILED })
        else
          let updated : PendingSettlement :=
            { pending with status := .VERIFIED, verification := some verification }
          ({ success := true, settlementId := settlementId, status := .VERIFIED,
             verification := some verification, error := none },
           { pendingSettlements := (setPending st settlementId updated).pendingSettlements
             verifiedTransactions := st.verifiedTransactions ++ [transactionHash] })
      else
        let newStatus : SettlementStatus :=
          if 0 < verification.confirmations then .CONFIRMING else .DETECTING
        ({ success := false, settlementId := settlementId, status := newStatus,
           verification := some verification,
           error := some (verification.error.getD "Awaiting confirmations") },
         setPending st settlementId { pending with status := newStatus })

/-- One recorded call to `verifyPendingSettlement`. -/
structure SVCall where
  settlementId : String
  transactionHash : String
  chain : Chain
  now : Int

def runCalls (cfg : SettlementConfig) (st : VerifierState) : List SVCall → VerifierState
  | [] => st
  | c :: cs =>
    runCalls cfg
      (verifyPendingSettlement cfg c.chain c.now st c.settlementId c.transactionHash).2 cs

/-- Number of calls in the sequence that are accepted (result success)
while presenting transaction hash `h`. -/
def countAccepts (cfg : SettlementConfig) (st : VerifierState) (h : String) :
    List SVCall → Nat
  | [] => 0
  | c :: cs =>
    (if c.transactionHash = h ∧
        (verifyPendingSettlement cfg c.chain c.now st c.settlementId c.transactionHash).1.success =
          true then 1 else 0) +
      countAccepts cfg
        (verifyPendingSettlement cfg c.chain c.now st c.settlementId c.transactionHash).2 h cs

/-! Concrete fixture used by witnesses and counterexamples: a settlement
`s1` expecting 1_000_000 µUSDC, a receipt for `0xtx1` carrying one
matching Transfer log with 3 confirmations — and a *failed* transaction
status, which the verifier never inspects. -/

def cfg0 : SettlementConfig :=
  { usdcContractAddress := "0xusdc"
    receiverAddress := "0xabc"
    confirmationBlocks := 3 }

def log0 : EthLog :=
  { address := "0xusdc"
    topics := [TRANSFER_EVENT_SIGNATURE,
      "0x000000000000000000000000fff",
      "0x000000000000000000000000abc"]
    data := 1000000
    transactionHash := "0xtx1"
    blockNumber := 100 }

def receipt0 : EthReceipt :=
  { status := "0x0"
    blockNumber := 100
    logs := [log0] }

def chain0 : Chain :=
  { receiptFor := fun h => if h == "0xtx1" then some receipt0 else none
    currentBlock := 103 }

def pending0 : PendingSettlement :=
  { id := "s1"
    expectedAmount := 1000000
    expectedSender := ""
    paymentId := "p1"
    createdAt := 0
    expiresAt := 1000
    status := .PENDING
    verification := none }

def st0 : VerifierState :=
  { pendingSettlements := [("s1", pending0)]
    verifiedTransactions := [] }

/-- The verification that `verifyTransaction cfg0 chain0 "0xtx1"` yields. -/
def ver0 : SettlementVerification :=
  { transactionHash := "0xtx1"
    verified := true
    amount := 1000000
    sender := "0xfff"
    blockNumber := 100
    confirmations := 3
    error := none }

/-- The fixture state after `s1` has been verified with `0xtx1`. -/
def stV : VerifierState :=
  { pendingSettlements := [("s1",
      { pending0 with status := .VERIFIED, verification := some ver0 })]
    verifiedTransactions := ["0xtx1"] }

end Settlement

namespace Liquidity

/-! Embedding of the `LiquidityMetrics` volatility-regime computation and
the `DEFAULT_VOLATILITY_THRESHOLDS` constants. The source computes
`sqrt(sampleVariance) * sqrt(365)` and compares it with the thresholds;
being non-negative on both sides, the comparison `vol ≤ θ` is carried out
here on the squared scale `variance * 365 ≤ θ²`, and the theorem for C8
relates this back to the source's square-root form. -/

inductive VolatilityRegime
  | low
  | normal
  | elevated
  | high
  | extreme
deriving DecidableEq, Repr

structure VolatilityThresholds where
  low : ℚ
  normal : ℚ
  elevated : ℚ
  high : ℚ
deriving DecidableEq, Repr

def DEFAULT_VOLATILITY_THRESHOLDS : VolatilityThresholds :=
  { low := 15/100
    normal := 30/100
    elevated := 1/2
    high := 4/5 }

def sampleMean (returns : List ℚ) : ℚ :=
  returns.sum / returns.length

/-- Sample variance with the `n - 1` divisor, exactly as in
`calculateAnnualizedVolatility`. -/
def sampleVariance (returns : List ℚ) : ℚ :=
  ((returns.map fun r => (r - sampleMean returns) ^ 2).sum) / ((returns.length : ℚ) - 1)

/-- `detectVolatilityRegime`: fewer than two samples classifies as
`normal`; otherwise bucket the annualized volatility by the thresholds
(with `vol ≤ θ` compared as `variance * 365 ≤ θ²`). -/
def detectVolatilityRegime (t : VolatilityThresholds) (returns : List ℚ) : VolatilityRegime :=
  if returns.length < 2 then .normal
  else
    let v := sampleVariance returns * 365
    if v ≤ t.low ^ 2 then .low
    else if v ≤ t.normal ^ 2 then .normal
    else if v ≤ t.elevated ^ 2 then .elevated
    else if v ≤ t.high ^ 2 then .high
    else .extreme

end Liquidity

/-! ## Theorems -/

namespace StateMachine

theorem transitionTo_of_fail (m : Machine) (target : Level)
    (h : canTransitionTo m target = false) : transitionTo m target = m := by
  simp [transitionTo, h]

theorem transitionTo_budgetLimit (m : Machine) (target : Level) :
    (transitionTo m target).budgetLimit = m.budgetLimit := by
  unfold transitionTo
  split <;> rfl

theorem stepOp_budgetLimit (m : Machine) (op : Op) :
    (stepOp m op).budgetLimit = m.budgetLimit := by
  cases op with
  | trans t => exact transitionTo_budgetLimit m t
  | escalate =>
    simp only [stepOp, escalate]
    split
    · rfl
    · exact transitionTo_budgetLimit m _
  | deescalate =>
    simp only [stepOp, deescalate]
    split
    · rfl
    · exact transitionTo_budgetLimit m _

theorem stepOp_spend_balance (m : Machine) (op : Op) :
    (stepOp m op).budgetUsed - getTotalCost (stepOp m op) =
      m.budgetUsed - getTotalCost m := by
  have htrans : ∀ t, (transitionTo m t).budgetUsed - getTotalCost (transitionTo m t) =
      m.budgetUsed - getTotalCost m := by
    intro t
    unfold transitionTo
    split
    · simp only [getTotalCost, List.map_append, List.sum_append, List.map_cons,
        List.map_nil, List.sum_cons, List.sum_nil]
      ring
    · rfl
  cases op with
  | trans t => exact htrans t
  | escalate =>
    simp only [stepOp, escalate]
    split
    · rfl
    · exact htrans _
  | deescalate =>
    simp only [stepOp, deescalate]
    split
    · rfl
    · exact htrans _

theorem runOps_budgetLimit (m : Machine) (ops : List Op) :
    (runOps m ops).budgetLimit = m.budgetLimit := by
  induction ops generalizing m with
  | nil => rfl
  | cons op ops ih =>
    simp only [runOps, List.foldl_cons] at *
    rw [ih (stepOp m op), stepOp_budgetLimit]

theorem runOps_spend_balance (m : Machine) (ops : List Op) :
    (runOps m ops).budgetUsed - getTotalCost (runOps m ops) =
      m.budgetUsed - getTotalCost m := by
  induction ops generalizing m with
  | nil => rfl
  | cons op ops ih =>
    simp only [runOps, List.foldl_cons] at *
    rw [ih (stepOp m op), stepOp_spend_balance]

end StateMachine

namespace Budget

theorem recordSpend_config (e : BudgetEnforcer) (a : ℚ) :
    ((recordSpend e a).2).config = e.config := by
  unfold recordSpend
  split
  · rfl
  · split <;> rfl

theorem recordSpend_le (e : BudgetEnforcer) (a : ℚ)
    (h : e.spent ≤ e.config.maxBudgetUSDC) :
    ((recordSpend e a).2).spent ≤ ((recordSpend e a).2).config.maxBudgetUSDC := by
  rw [recordSpend_config]
  unfold recordSpend
  split
  · exact h
  · split
    · exact h
    · simp only
      linarith [not_lt.mp (by assumption)]

theorem runSpends_le (e : BudgetEnforcer) (amounts : List ℚ)
    (h : e.spent ≤ e.config.maxBudgetUSDC) :
    (runSpends e amounts).spent ≤ (runSpends e amounts).config.maxBudgetUSDC := by
  induction amounts generalizing e with
  | nil => exact h
  | cons a amounts ih =>
    simp only [runSpends, List.foldl_cons] at *
    exact ih (recordSpend e a).2 (recordSpend_le e a h)

end Budget

namespace PayBudget

theorem round6_micro {q : ℚ} (h : isMicroUSDC q) : round6 q = q := by
  obtain ⟨k, rfl⟩ := h
  unfold round6
  rw [div_mul_cancel₀ _ (by norm_num : (1000000 : ℚ) ≠ 0), round_intCast]

theorem isMicroUSDC_add {a b : ℚ} (ha : isMicroUSDC a) (hb : isMicroUSDC b) :
    isMicroUSDC (a + b) := by
  obtain ⟨j, rfl⟩ := ha
  obtain ⟨k, rfl⟩ := hb
  exact ⟨j + k, by push_cast; ring⟩

end PayBudget

namespace Settlement

theorem setPending_verifiedTransactions (st : VerifierState) (settlementId : String)
    (p : PendingSettlement) :
    (setPending st settlementId p).verifiedTransactions = st.verifiedTransactions := rfl

/-- Shape of one `verifyPendingSettlement` call: either it fails and the
consumed-tx set is unchanged, or it succeeds, the presented hash was not
yet consumed, and the hash is appended to the set. -/
theorem step_shape (cfg : SettlementConfig) (chain : Chain) (now : Int)
    (st : VerifierState) (sid h : String) :
    ((verifyPendingSettlement cfg chain now st sid h).1.success = false ∧
        (verifyPendingSettlement cfg chain now st sid h).2.verifiedTransactions =
          st.verifiedTransactions) ∨
      ((verifyPendingSettlement cfg chain now st sid h).1.success = true ∧
        h ∉ st.verifiedTransactions ∧
        (verifyPendingSettlement cfg chain now st sid h).2.verifiedTransactions =
          st.verifiedTransactions ++ [h]) := by
  unfold verifyPendingSettlement
  cases hl : lookupPending st sid with
  | none => exact Or.inl ⟨rfl, rfl⟩
  | some pending =>
    dsimp only
    split
    · exact Or.inl ⟨rfl, rfl⟩
    · split
      · exact Or.inl ⟨rfl, rfl⟩
      · rename_i hmem
        split
        · split
          · exact Or.inl ⟨rfl, rfl⟩
          · split
            · exact Or.inl ⟨rfl, rfl⟩
            · exact Or.inr ⟨rfl, hmem, rfl⟩
        · exact Or.inl ⟨rfl, rfl⟩

theorem countAccepts_eq_zero_of_mem (cfg : SettlementConfig) (h : String)
    (calls : List SVCall) :
    ∀ st : VerifierState, h ∈ st.verifiedTransactions → countAccepts cfg st h calls = 0 := by
  induction calls with
  | nil => intro st _; rfl
  | cons c cs ih =>
    intro st hmem
    show (if _ then 1 else 0) + countAccepts cfg _ h cs = 0
    rcases step_shape cfg c.chain c.now st c.settlementId c.transactionHash with
      ⟨hf, hv⟩ | ⟨hs, hn, hv⟩
    · rw [if_neg (by simp [hf]), ih _ (by rw [hv]; exact hmem)]
    · rw [if_neg ?notacc, ih _ (by rw [hv]; exact List.mem_append_left _ hmem)]
      case notacc =>
        rintro ⟨hceq, _⟩
        exact hn (hceq ▸ hmem)

theorem countAccepts_le_one (cfg : SettlementConfig) (h : String) (calls : List SVCall) :
    ∀ st : VerifierState, h ∉ st.verifiedTransactions → countAccepts cfg st h calls ≤ 1 := by
  induction calls with
  | nil => intro st _; exact Nat.zero_le 1
  | cons c cs ih =>
    intro st hnot
    show (if _ then 1 else 0) + countAccepts cfg _ h cs ≤ 1
    rcases step_shape cfg c.chain c.now st c.settlementId c.transactionHash with
      ⟨hf, hv⟩ | ⟨hs, hn, hv⟩
    · rw [if_neg (by simp [hf])]
      have hrest := ih _ (show h ∉ _ by rw [hv]; exact hnot)
      omega
    · by_cases hch : c.transactionHash = h
      · rw [if_pos ⟨hch, hs⟩]
        have hz : countAccepts cfg
            (verifyPendingSettlement cfg c.chain c.now st c.settlementId c.transactionHash).2
            h cs = 0 := by
          apply countAccepts_eq_zero_of_mem
          rw [hv, hch]
          exact List.mem_append_right _ (List.mem_singleton_self h)
        omega
      · rw [if_neg (by rintro ⟨hc, _⟩; exact hch hc)]
        have hnot2 : h ∉
            (verifyPendingSettlement cfg c.chain c.now st c.settlementId c.transactionHash).2.verifiedTransactions := by
          rw [hv]
          intro hin
          rcases List.mem_append.mp hin with hin1 | hin2
          · exact hnot hin1
          · exact hch (List.mem_singleton.mp hin2).symm
        have hrest := ih _ hnot2
        omega

end Settlement

/-- C1: starting from `currentBudgetUsed = 0`, after any sequence of
`transitionTo`/`escalate`/`deescalate` calls, the sum of the cost fields of
the recorded successful transitions (`getTotalCost`) equals the final
budget spent, i.e. `budgetLimit - getRemainingBudget`; and a failed
transition attempt leaves the whole state (hence spend and ledger)
unchanged, contributing zero cost. -/
theorem claim_C1_budget_accounting (initialLevel : StateMachine.Level) (budgetLimit : ℚ)
    (ops : List StateMachine.Op) :
    StateMachine.getTotalCost
        (StateMachine.runOps (StateMachine.initMachine initialLevel budgetLimit 0) ops) =
        budgetLimit -
          StateMachine.getRemainingBudget
            (StateMachine.runOps (StateMachine.initMachine initialLevel budgetLimit 0) ops) ∧
      ∀ m target, StateMachine.canTransitionTo m target = false →
        StateMachine.transitionTo m target = m := by
  constructor
  · have hbal := StateMachine.runOps_spend_balance
      (StateMachine.initMachine initialLevel budgetLimit 0) ops
    have hlim := StateMachine.runOps_budgetLimit
      (StateMachine.initMachine initialLevel budgetLimit 0) ops
    have h0 : StateMachine.getTotalCost (StateMachine.initMachine initialLevel budgetLimit 0) = 0 := rfl
    have h0' : (StateMachine.initMachine initialLevel budgetLimit 0).budgetUsed = 0 := rfl
    have h0l : (StateMachine.initMachine initialLevel budgetLimit 0).budgetLimit = budgetLimit := rfl
    rw [h0, h0'] at hbal
    rw [h0l] at hlim
    unfold StateMachine.getRemainingBudget
    rw [hlim]
    linarith
  · intro m target h
    exact StateMachine.transitionTo_of_fail m target h

/-- Closed witness for C1: a two-step run (escalate then a failed jump)
where the recorded cost sum equals the budget spent, and a concrete failed
transition that leaves the machine unchanged. -/
theorem claim_C1_budget_accounting_witness :
    StateMachine.getTotalCost
        (StateMachine.runOps (StateMachine.initMachine StateMachine.Level.L0 10 0)
          [StateMachine.Op.escalate, StateMachine.Op.trans StateMachine.Level.L3]) =
        10 -
          StateMachine.getRemainingBudget
            (StateMachine.runOps (StateMachine.initMachine StateMachine.Level.L0 10 0)
              [StateMachine.Op.escalate, StateMachine.Op.trans StateMachine.Level.L3]) ∧
      StateMachine.transitionTo (StateMachine.initMachine StateMachine.Level.L0 10 0)
          StateMachine.Level.L2 =
        StateMachine.initMachine StateMachine.Level.L0 10 0 := by
  refine ⟨(claim_C1_budget_accounting StateMachine.Level.L0 10
    [StateMachine.Op.escalate, StateMachine.Op.trans StateMachine.Level.L3]).1, ?_⟩
  apply (claim_C1_budget_accounting StateMachine.Level.L0 10 []).2
  simp [StateMachine.canTransitionTo, StateMachine.sequentialGuard, StateMachine.initMachine,
    StateMachine.Level.idx]

/-- C5: every successful transition of the machine that goes upward moves
exactly one level (`to = from + 1`); the `sequentialGuard` itself passes
whenever `toIndex ≤ fromIndex + 1`, so de-escalations may skip downward
freely. -/
theorem claim_C5_single_step_up (m : StateMachine.Machine) (target : StateMachine.Level) :
    (StateMachine.canTransitionTo m target = true → m.level.idx < target.idx →
        target.idx = m.level.idx + 1) ∧
      (target.idx ≤ m.level.idx + 1 → StateMachine.sequentialGuard m.level target = true) := by
  constructor
  · intro hcan hup
    have hseq : StateMachine.sequentialGuard m.level target = true := by
      have := hcan
      unfold StateMachine.canTransitionTo at this
      exact (Bool.and_eq_true _ _ |>.mp this).2
    unfold StateMachine.sequentialGuard at hseq
    have hle : target.idx ≤ m.level.idx + 1 := of_decide_eq_true hseq
    omega
  · intro hle
    unfold StateMachine.sequentialGuard
    exact decide_eq_true hle

/-- Closed witness for C5: the successful `L0 → L1` transition is a
single upward step, and the guard accepts it. -/
theorem claim_C5_single_step_up_witness :
    (StateMachine.Level.L1.idx =
        (StateMachine.initMachine StateMachine.Level.L0 10 0).level.idx + 1) ∧
      StateMachine.sequentialGuard (StateMachine.initMachine StateMachine.Level.L0 10 0).level
          StateMachine.Level.L1 = true := by
  have hcan : StateMachine.canTransitionTo (StateMachine.initMachine StateMachine.Level.L0 10 0)
      StateMachine.Level.L1 = true := by
    simp only [StateMachine.canTransitionTo, StateMachine.budgetGuard,
      StateMachine.sequentialGuard, StateMachine.initMachine, StateMachine.ESCALATION_COSTS,
      StateMachine.Level.idx, Bool.and_eq_true, decide_eq_true_eq]
    norm_num
  refine ⟨?_, ?_⟩
  · exact (claim_C5_single_step_up (StateMachine.initMachine StateMachine.Level.L0 10 0)
      StateMachine.Level.L1).1 hcan (by decide)
  · exact (claim_C5_single_step_up (StateMachine.initMachine StateMachine.Level.L0 10 0)
      StateMachine.Level.L1).2 (by decide)

/-- C6 counterexample: in the `EscalationStateMachine` (whose
`ESCALATION_COSTS` table charges by target level), the successful
`L4 → L5` transition records a cost of 2_500_000 µUSDC, not 2_000_000,
and the successful de-escalation `L2 → L1` records 100_000 µUSDC, not 0. -/
theorem claim_C6_cost_table_counterexample :
    StateMachine.getTotalCost
        (StateMachine.transitionTo (StateMachine.initMachine StateMachine.Level.L4 10 0)
          StateMachine.Level.L5) * 1000000 = 2500000 ∧
      (2500000 : ℚ) ≠ 2000000 ∧
      StateMachine.getTotalCost
          (StateMachine.deescalate (StateMachine.initMachine StateMachine.Level.L2 10 0)) * 1000000 =
        100000 ∧
      (100000 : ℚ) ≠ 0 := by
  have h45 : StateMachine.canTransitionTo (StateMachine.initMachine StateMachine.Level.L4 10 0)
      StateMachine.Level.L5 = true := by
    simp only [StateMachine.canTransitionTo, StateMachine.budgetGuard,
      StateMachine.sequentialGuard, StateMachine.initMachine, StateMachine.ESCALATION_COSTS,
      StateMachine.Level.idx, Bool.and_eq_true, decide_eq_true_eq]
    norm_num
  have h21 : StateMachine.canTransitionTo (StateMachine.initMachine StateMachine.Level.L2 10 0)
      StateMachine.Level.L1 = true := by
    simp only [StateMachine.canTransitionTo, StateMachine.budgetGuard,
      StateMachine.sequentialGuard, StateMachine.initMachine, StateMachine.ESCALATION_COSTS,
      StateMachine.Level.idx, Bool.and_eq_true, decide_eq_true_eq]
    norm_num
  refine ⟨?_, by norm_num, ?_, by norm_num⟩
  · rw [StateMachine.transitionTo, h45]
    simp only [StateMachine.getTotalCost, StateMachine.initMachine, List.nil_append,
      List.map_cons, List.map_nil, List.sum_cons, List.sum_nil, StateMachine.ESCALATION_COSTS]
    norm_num
  · have hde : StateMachine.deescalate (StateMachine.initMachine StateMachine.Level.L2 10 0) =
        StateMachine.transitionTo (StateMachine.initMachine StateMachine.Level.L2 10 0)
          StateMachine.Level.L1 := by
      simp [StateMachine.deescalate, StateMachine.initMachine, StateMachine.Level.idx,
        StateMachine.Level.prev]
    rw [hde, StateMachine.transitionTo, h21]
    simp only [StateMachine.getTotalCost, StateMachine.initMachine, List.nil_append,
      List.map_cons, List.map_nil, List.sum_cons, List.sum_nil, StateMachine.ESCALATION_COSTS]
    norm_num

/-- C6 (amended): in the `config.ts` transition table (`getTransitionCost`),
L2→L3 costs 500_000 µUSDC, L3→L4 costs 1_000_000, L4→L5 costs 2_000_000,
and every de-escalation, free transition (including L0→L1 and L1→L2) and
budget-block transition costs 0; the `EscalationStateMachine`'s own
`ESCALATION_COSTS` table instead charges by target level, so there the
L4→L5 transition costs 2_500_000 µUSDC and a de-escalation to L1 costs
100_000 µUSDC. -/
theorem claim_C6_cost_table_amended :
    Config.getTransitionCost Config.CfgLevel.L2_ALERT Config.CfgLevel.L3_MARKET_DATA * 1000000 = 500000 ∧
      Config.getTransitionCost Config.CfgLevel.L3_MARKET_DATA Config.CfgLevel.L4_CRITICAL * 1000000 = 1000000 ∧
      Config.getTransitionCost Config.CfgLevel.L4_CRITICAL Config.CfgLevel.L5_EMERGENCY * 1000000 = 2000000 ∧
      Config.getTransitionCost Config.CfgLevel.L0_IDLE Config.CfgLevel.L1_MONITOR = 0 ∧
      Config.getTransitionCost Config.CfgLevel.L1_MONITOR Config.CfgLevel.L2_ALERT = 0 ∧
      Config.getTransitionCost Config.CfgLevel.L5_EMERGENCY Config.CfgLevel.L4_CRITICAL = 0 ∧
      Config.getTransitionCost Config.CfgLevel.L4_CRITICAL Config.CfgLevel.L3_MARKET_DATA = 0 ∧
      Config.getTransitionCost Config.CfgLevel.L3_MARKET_DATA Config.CfgLevel.L2_ALERT = 0 ∧
      Config.getTransitionCost Config.CfgLevel.L2_ALERT Config.CfgLevel.L1_MONITOR = 0 ∧
      Config.getTransitionCost Config.CfgLevel.L1_MONITOR Config.CfgLevel.L0_IDLE = 0 ∧
      Config.getTransitionCost Config.CfgLevel.L2_ALERT Config.CfgLevel.BUDGET_BLOCKED = 0 ∧
      Config.getTransitionCost Config.CfgLevel.L3_MARKET_DATA Config.CfgLevel.BUDGET_BLOCKED = 0 ∧
      Config.getTransitionCost Config.CfgLevel.L4_CRITICAL Config.CfgLevel.BUDGET_BLOCKED = 0 ∧
      Config.getTransitionCost Config.CfgLevel.BUDGET_BLOCKED Config.CfgLevel.L1_MONITOR = 0 ∧
      StateMachine.ESCALATION_COSTS StateMachine.Level.L5 * 1000000 = 2500000 ∧
      StateMachine.ESCALATION_COSTS StateMachine.Level.L1 * 1000000 = 100000 := by
  refine ⟨?_, ?_, ?_, rfl, rfl, rfl, rfl, rfl, rfl, rfl, rfl, rfl, rfl, rfl, ?_, ?_⟩
  · rw [show Config.getTransitionCost Config.CfgLevel.L2_ALERT Config.CfgLevel.L3_MARKET_DATA =
        1/2 from rfl]
    norm_num
  · rw [show Config.getTransitionCost Config.CfgLevel.L3_MARKET_DATA Config.CfgLevel.L4_CRITICAL =
        1 from rfl]
    norm_num
  · rw [show Config.getTransitionCost Config.CfgLevel.L4_CRITICAL Config.CfgLevel.L5_EMERGENCY =
        2 from rfl]
    norm_num
  · rw [show StateMachine.ESCALATION_COSTS StateMachine.Level.L5 = 5/2 from rfl]
    norm_num
  · rw [show StateMachine.ESCALATION_COSTS StateMachine.Level.L1 = 1/10 from rfl]
    norm_num

/-- C7: `recordSpend` never throws and returns a tagged pair; whenever the
ledger is in the `BUDGET_BLOCKED` state or `spent + amount` would exceed
the limit, it returns `false` with the state unchanged; consequently
starting from any spend within the limit (in particular 0), `spent` never
exceeds the limit over any sequence of `recordSpend` calls, and the
remaining budget reported by `getStatus` is never negative. -/
theorem claim_C7_budget_ledger (e : Budget.BudgetEnforcer) (amount : ℚ)
    (amounts : List ℚ) (h : e.spent ≤ e.config.maxBudgetUSDC) :
    ((Budget.getStateUnsafe e = Budget.BudgetState.BUDGET_BLOCKED ∨
        e.config.maxBudgetUSDC < e.spent + amount) →
      Budget.recordSpend e amount = (false, e)) ∧
    (Budget.runSpends e amounts).spent ≤ (Budget.runSpends e amounts).config.maxBudgetUSDC ∧
    0 ≤ (Budget.getStatus e).remaining := by
  refine ⟨?_, Budget.runSpends_le e amounts h, le_max_left 0 _⟩
  intro hrej
  unfold Budget.recordSpend
  rcases hrej with hb | hover
  · rw [if_pos hb]
  · by_cases hblk : Budget.getStateUnsafe e = Budget.BudgetState.BUDGET_BLOCKED
    · rw [if_pos hblk]
    · rw [if_neg hblk, if_pos hover]

/-- Closed witness for C7: with the default config and nothing spent, a
21-unit spend is rejected unchanged, a run of spends stays within the
10 USDC limit, and the reported remaining budget is non-negative. -/
theorem claim_C7_budget_ledger_witness :
    Budget.recordSpend ⟨Budget.DEFAULT_BUDGET_CONFIG, 0⟩ 21 =
        (false, ⟨Budget.DEFAULT_BUDGET_CONFIG, 0⟩) ∧
      (Budget.runSpends ⟨Budget.DEFAULT_BUDGET_CONFIG, 0⟩ [4, 4, 4]).spent ≤
        (Budget.runSpends ⟨Budget.DEFAULT_BUDGET_CONFIG, 0⟩ [4, 4, 4]).config.maxBudgetUSDC ∧
      0 ≤ (Budget.getStatus ⟨Budget.DEFAULT_BUDGET_CONFIG, 0⟩).remaining := by
  have h := claim_C7_budget_ledger ⟨Budget.DEFAULT_BUDGET_CONFIG, 0⟩ 21 [4, 4, 4]
    (by norm_num [Budget.DEFAULT_BUDGET_CONFIG])
  exact ⟨h.1 (Or.inr (by norm_num [Budget.DEFAULT_BUDGET_CONFIG])), h.2.1, h.2.2⟩

/-- C10: `canAffordPayment` returns `false` for every amount ≤ 0 and for
every amount above `MAX_SINGLE_PAYMENT` (2 USDC); for positive amounts
within that cap (measured in whole micro-USDC, as `validatePaymentAmount`
enforces), it returns `true` iff the remaining budget is at least
`amount + MINIMUM_RESERVE` (0.01 USDC); and a payment can be rejected even
when the raw remaining budget covers the amount (spent = 9.995 of 10,
amount = 0.005). -/
theorem claim_C10_can_afford_payment (spent amount total : ℚ)
    (ha : PayBudget.isMicroUSDC amount) :
    (amount ≤ 0 → PayBudget.canAffordPayment spent amount total = false) ∧
      (PayBudget.BUDGET_LIMITS.MAX_SINGLE_PAYMENT < amount →
        PayBudget.canAffordPayment spent amount total = false) ∧
      (0 < amount → amount ≤ PayBudget.BUDGET_LIMITS.MAX_SINGLE_PAYMENT →
        (PayBudget.canAffordPayment spent amount total = true ↔
          amount + PayBudget.BUDGET_LIMITS.MINIMUM_RESERVE ≤
            PayBudget.getRemainingBudget spent total)) ∧
      PayBudget.canAffordPayment (9995/1000) (5/1000) 10 = false ∧
      (5/1000 : ℚ) ≤ 10 - 9995/1000 := by
  refine ⟨?_, ?_, ?_, ?_, by norm_num⟩
  · intro h0
    unfold PayBudget.canAffordPayment
    rw [if_pos h0]
  · intro hbig
    have hc : (0:ℚ) < PayBudget.BUDGET_LIMITS.MAX_SINGLE_PAYMENT := by
      norm_num [PayBudget.BUDGET_LIMITS]
    unfold PayBudget.canAffordPayment
    rw [if_neg (by linarith), if_pos hbig]
  · intro hpos hcap
    unfold PayBudget.canAffordPayment
    rw [if_neg (by linarith), if_neg (by linarith)]
    rw [show PayBudget.safeAdd amount PayBudget.BUDGET_LIMITS.MINIMUM_RESERVE =
        amount + PayBudget.BUDGET_LIMITS.MINIMUM_RESERVE from
      PayBudget.round6_micro (PayBudget.isMicroUSDC_add ha
        ⟨10000, by norm_num [PayBudget.BUDGET_LIMITS]⟩)]
    exact decide_eq_true_iff
  · have hr : PayBudget.round6 ((10 : ℚ) - 9995/1000) = (10 : ℚ) - 9995/1000 :=
      PayBudget.round6_micro ⟨5000, by norm_num⟩
    have hadd : PayBudget.safeAdd (5/1000) PayBudget.BUDGET_LIMITS.MINIMUM_RESERVE =
        (5/1000 : ℚ) + 1/100 := by
      rw [show PayBudget.BUDGET_LIMITS.MINIMUM_RESERVE = (1/100 : ℚ) from rfl]
      exact PayBudget.round6_micro ⟨15000, by norm_num⟩
    unfold PayBudget.canAffordPayment
    rw [if_neg (by norm_num), if_neg (by norm_num [PayBudget.BUDGET_LIMITS]), hadd]
    unfold PayBudget.getRemainingBudget PayBudget.safeSubtract
    rw [hr, max_eq_right (by norm_num : (0:ℚ) ≤ 10 - 9995/1000)]
    rw [decide_eq_false_iff_not]
    norm_num

/-- Closed witness for C10: with nothing spent of the 10 USDC budget, a
0.25 USDC payment is affordable iff 0.26 ≤ remaining, and the concrete
reserve-rejection case evaluates to `false`. -/
theorem claim_C10_can_afford_payment_witness :
    (PayBudget.canAffordPayment 0 (1/4) 10 = true ↔
        (1/4 : ℚ) + PayBudget.BUDGET_LIMITS.MINIMUM_RESERVE ≤
          PayBudget.getRemainingBudget 0 10) ∧
      PayBudget.canAffordPayment (9995/1000) (5/1000) 10 = false := by
  have h := claim_C10_can_afford_payment 0 (1/4) 10 ⟨250000, by norm_num⟩
  exact ⟨h.2.2.1 (by norm_num) (by norm_num [PayBudget.BUDGET_LIMITS]), h.2.2.2.1⟩

/-- C9 counterexample: an invoice minted at time 0 expires at 300_000 ms
(5 minutes), not at 900_000 ms (the claimed 15-minute / 900-second TTL). -/
theorem claim_C9_invoice_ttl_counterexample :
    (Payments402.createPaymentRequest "0xgateway" "spot_price" 1 "req-1" 0).expiresAt = 300000 ∧
      (300000 : Int) ≠ 900 * 1000 := by
  constructor
  · norm_num [Payments402.createPaymentRequest]
  · norm_num

/-- C9 (amended): every invoice expires exactly at its creation time
plus its TTL, but the TTL is not uniformly the claimed 15 minutes: the
`KaikoGateway`'s 402 invoices (`create402Response`) do use 15 minutes
(900_000 ms), while `Http402Handler.createPaymentRequest` — also cited
by the claim — hard-codes 5 minutes (300_000 ms), and the settlement
layer's default timeout is 120_000 ms (2 minutes). -/
theorem claim_C9_invoice_ttl_amended (recipient endpoint requestId : String)
    (amount : ℚ) (now : Int) :
    (Payments402.createPaymentRequest recipient endpoint amount requestId now).expiresAt =
        now + 300 * 1000 ∧
      (Kaiko.create402Response recipient amount endpoint requestId now).expiresAt =
        now + 900 * 1000 ∧
      Settlement.DEFAULT_SETTLEMENT_CONFIG.timeoutMs = 120000 := by
  refine ⟨?_, ?_, rfl⟩
  · show now + 5 * 60 * 1000 = now + 300 * 1000
    norm_num
  · show now + 15 * 60 * 1000 = now + 900 * 1000
    norm_num

/-- C2 counterexample: the verifier accepts a transaction whose receipt
has a *failed* status (`"0x0"`): receipt status is never inspected, so
"receipt … has status success" is not part of the accepting conditions. -/
theorem claim_C2_settlement_verification_counterexample :
    Settlement.chain0.receiptFor "0xtx1" = some Settlement.receipt0 ∧
      Settlement.receipt0.status ≠ "0x1" ∧
      (Settlement.verifyPendingSettlement Settlement.cfg0 Settlement.chain0 0 Settlement.st0
          "s1" "0xtx1").1.success = true ∧
      (Settlement.verifyPendingSettlement Settlement.cfg0 Settlement.chain0 0 Settlement.st0
          "s1" "0xtx1").1.status = Settlement.SettlementStatus.VERIFIED := by
  refine ⟨rfl, by decide, rfl, rfl⟩

/-- C2 (amended): for an existing, unexpired pending settlement,
verification succeeds iff: the receipt exists (its status field — success
or failure — is never inspected); the first log on the configured USDC
contract carrying the ERC-20 Transfer topic with `to` equal to the
configured recipient exists and its amount is at least the expected
amount; when an expected sender is set, the transfer's `from` equals it;
current block minus receipt block reaches the confirmation threshold
(default 3); and the hash has not been consumed by an earlier
settlement. -/
theorem claim_C2_settlement_verification_amended (cfg : Settlement.SettlementConfig)
    (chain : Settlement.Chain) (now : Int) (st : Settlement.VerifierState)
    (sid h : String) (pending : Settlement.PendingSettlement)
    (hl : Settlement.lookupPending st sid = some pending)
    (hexp : ¬ pending.expiresAt < now) :
    ((Settlement.verifyPendingSettlement cfg chain now st sid h).1.success = true ↔
      (h ∉ st.verifiedTransactions ∧
        ∃ receipt, chain.receiptFor h = some receipt ∧
          ∃ t, (Settlement.parseTransferEvents cfg receipt.logs).find?
              (fun t => Settlement.lowerStr t.toAddr == Settlement.lowerStr cfg.receiverAddress) = some t ∧
            pending.expectedAmount ≤ t.amount ∧
            (pending.expectedSender ≠ "" → Settlement.lowerStr t.fromAddr = Settlement.lowerStr pending.expectedSender) ∧
            cfg.confirmationBlocks ≤ chain.currentBlock - receipt.blockNumber)) ∧
      Settlement.DEFAULT_SETTLEMENT_CONFIG.confirmationBlocks = 3 := by
  refine ⟨?_, rfl⟩
  unfold Settlement.verifyPendingSettlement
  rw [hl]
  dsimp only
  rw [if_neg hexp]
  by_cases hmem : h ∈ st.verifiedTransactions
  · rw [if_pos hmem]
    dsimp only
    constructor
    · intro hfalse
      exact absurd hfalse (by simp)
    · rintro ⟨hn, _⟩
      exact absurd hmem hn
  · rw [if_neg hmem]
    unfold Settlement.verifyTransaction
    cases hr : chain.receiptFor h with
    | none =>
      dsimp only
      simp [hmem]
    | some receipt =>
      dsimp only
      cases hf : (Settlement.parseTransferEvents cfg receipt.logs).find?
          (fun t => Settlement.lowerStr t.toAddr == Settlement.lowerStr cfg.receiverAddress) with
      | none =>
        dsimp only
        simp [hmem, hf]
      | some t =>
        dsimp only
        by_cases hconf : cfg.confirmationBlocks ≤ chain.currentBlock - receipt.blockNumber
        · rw [if_pos (by simp [hconf])]
          by_cases hamt : t.amount < pending.expectedAmount
          · rw [if_pos hamt]
            dsimp only
            constructor
            · intro hfalse
              exact absurd hfalse (by simp)
            · rintro ⟨_, receipt2, hr2, t2, hf2, hge, _, _⟩
              injection hr2 with hre
              subst hre
              rw [hf] at hf2
              injection hf2 with hte
              subst hte
              exact absurd hge (not_le.mpr hamt)
          · rw [if_neg hamt]
            by_cases hsend : pending.expectedSender ≠ "" ∧
                Settlement.lowerStr t.fromAddr ≠ Settlement.lowerStr pending.expectedSender
            · rw [if_pos hsend]
              dsimp only
              constructor
              · intro hfalse
                exact absurd hfalse (by simp)
              · rintro ⟨_, receipt2, hr2, t2, hf2, _, hfrom, _⟩
                injection hr2 with hre
                subst hre
                rw [hf] at hf2
                injection hf2 with hte
                subst hte
                exact absurd (hfrom hsend.1) hsend.2
            · rw [if_neg hsend]
              dsimp only
              constructor
              · intro _
                push_neg at hsend
                exact ⟨hmem, receipt, rfl, t, hf, not_lt.mp hamt, hsend, hconf⟩
              · intro _
                rfl
        · rw [if_neg (by simp [hconf])]
          dsimp only
          constructor
          · intro hfalse
            exact absurd hfalse (by simp)
          · rintro ⟨_, receipt2, hr2, t2, hf2, _, _, hc2⟩
            injection hr2 with hre
            subst hre
            exact absurd hc2 hconf

/-- Closed witness for C2 (amended): the fixture settlement/receipt
instantiates the equivalence, with a successful verification. -/
theorem claim_C2_settlement_verification_amended_witness :
    ((Settlement.verifyPendingSettlement Settlement.cfg0 Settlement.chain0 0 Settlement.st0
        "s1" "0xtx1").1.success = true ↔
      ("0xtx1" ∉ Settlement.st0.verifiedTransactions ∧
        ∃ receipt, Settlement.chain0.receiptFor "0xtx1" = some receipt ∧
          ∃ t, (Settlement.parseTransferEvents Settlement.cfg0 receipt.logs).find?
              (fun t => Settlement.lowerStr t.toAddr == Settlement.lowerStr Settlement.cfg0.receiverAddress) = some t ∧
            Settlement.pending0.expectedAmount ≤ t.amount ∧
            (Settlement.pending0.expectedSender ≠ "" →
              Settlement.lowerStr t.fromAddr = Settlement.lowerStr Settlement.pending0.expectedSender) ∧
            Settlement.cfg0.confirmationBlocks ≤
              Settlement.chain0.currentBlock - receipt.blockNumber)) ∧
      Settlement.DEFAULT_SETTLEMENT_CONFIG.confirmationBlocks = 3 :=
  claim_C2_settlement_verification_amended Settlement.cfg0 Settlement.chain0 0 Settlement.st0
    "s1" "0xtx1" Settlement.pending0 rfl (by decide)

/-- C3: over every sequence of `verifyPendingSettlement` calls, a given
transaction hash is accepted for at most one settlement; and a call that
presents an already-consumed hash for an existing, unexpired settlement is
rejected with the transaction-already-used error and leaves the entire
verifier state — in particular the earlier verified settlement —
unchanged. -/
theorem claim_C3_double_spend (cfg : Settlement.SettlementConfig)
    (st : Settlement.VerifierState) (calls : List Settlement.SVCall) (h : String)
    (hnot : h ∉ st.verifiedTransactions) :
    Settlement.countAccepts cfg st h calls ≤ 1 ∧
      ∀ (chain : Settlement.Chain) (now : Int) (sid h2 : String)
        (pending : Settlement.PendingSettlement),
        Settlement.lookupPending st sid = some pending →
        ¬ pending.expiresAt < now →
        h2 ∈ st.verifiedTransactions →
        Settlement.verifyPendingSettlement cfg chain now st sid h2 =
          ({ success := false, settlementId := sid, status := .FAILED, verification := none,
             error := some "Transaction already used for another settlement" }, st) := by
  refine ⟨Settlement.countAccepts_le_one cfg h calls st hnot, ?_⟩
  intro chain now sid h2 pending hl hexp hmem
  unfold Settlement.verifyPendingSettlement
  rw [hl]
  dsimp only
  rw [if_neg hexp, if_pos hmem]

/-- Closed witness for C3: in the fixture state where `0xtx1` is already
consumed, a fresh hash is accepted at most once over a call sequence, and
replaying `0xtx1` is rejected with the transaction-already-used error,
state unchanged. -/
theorem claim_C3_double_spend_witness :
    Settlement.countAccepts Settlement.cfg0 Settlement.stV "0xtx2"
        [{ settlementId := "s1", transactionHash := "0xtx1", chain := Settlement.chain0,
           now := 0 }] ≤ 1 ∧
      Settlement.verifyPendingSettlement Settlement.cfg0 Settlement.chain0 0 Settlement.stV
          "s1" "0xtx1" =
        ({ success := false, settlementId := "s1", status := .FAILED, verification := none,
           error := some "Transaction already used for another settlement" },
         Settlement.stV) := by
  have h := claim_C3_double_spend Settlement.cfg0 Settlement.stV
    [{ settlementId := "s1", transactionHash := "0xtx1", chain := Settlement.chain0, now := 0 }]
    "0xtx2" (by decide)
  exact ⟨h.1, h.2 Settlement.chain0 0 "s1" "0xtx1"
    { Settlement.pending0 with status := .VERIFIED, verification := some Settlement.ver0 }
    rfl (by decide) (by decide)⟩

/-- C4 counterexample: replaying a settlement that is already VERIFIED
(same settlement id `s1`, same hash `0xtx1`) does *not* return the stored
receipt/verification: it is rejected as a failed result with the
transaction-already-used error and no verification attached. -/
theorem claim_C4_replay_counterexample :
    (Settlement.lookupPending Settlement.stV "s1").map (fun p => p.status) =
        some Settlement.SettlementStatus.VERIFIED ∧
      (Settlement.verifyPendingSettlement Settlement.cfg0 Settlement.chain0 0 Settlement.stV
          "s1" "0xtx1").1.success = false ∧
      (Settlement.verifyPendingSettlement Settlement.cfg0 Settlement.chain0 0 Settlement.stV
          "s1" "0xtx1").1.verification = none ∧
      (Settlement.verifyPendingSettlement Settlement.cfg0 Settlement.chain0 0 Settlement.stV
          "s1" "0xtx1").1.error =
        some "Transaction already used for another settlement" := by
  refine ⟨rfl, rfl, rfl, rfl⟩

/-- C4 (amended): replaying a settlement whose status is already VERIFIED
(same id, same consumed hash, within expiry) is rejected with the
transaction-already-used error — there is no VERIFIED fast-path returning
the receipt — and the verifier state is completely unchanged: the stored
VERIFIED settlement and its verification are untouched and no extra spend
can occur. -/
theorem claim_C4_replay_amended (cfg : Settlement.SettlementConfig)
    (chain : Settlement.Chain) (now : Int) (st : Settlement.VerifierState)
    (sid h : String) (pending : Settlement.PendingSettlement)
    (hl : Settlement.lookupPending st sid = some pending)
    (_hver : pending.status = Settlement.SettlementStatus.VERIFIED)
    (hmem : h ∈ st.verifiedTransactions)
    (hexp : ¬ pending.expiresAt < now) :
    Settlement.verifyPendingSettlement cfg chain now st sid h =
      ({ success := false, settlementId := sid, status := .FAILED, verification := none,
         error := some "Transaction already used for another settlement" }, st) := by
  unfold Settlement.verifyPendingSettlement
  rw [hl]
  dsimp only
  rw [if_neg hexp, if_pos hmem]

/-- Closed witness for C4 (amended): the fixture VERIFIED settlement
replayed with its consumed hash yields the rejection, state unchanged. -/
theorem claim_C4_replay_amended_witness :
    (Settlement.lookupPending Settlement.stV "s1").map (fun p => p.status) =
        some Settlement.SettlementStatus.VERIFIED ∧
      Settlement.verifyPendingSettlement Settlement.cfg0 Settlement.chain0 0 Settlement.stV
          "s1" "0xtx1" =
        ({ success := false, settlementId := "s1", status := .FAILED, verification := none,
           error := some "Transaction already used for another settlement" },
         Settlement.stV) :=
  ⟨rfl, claim_C4_replay_amended Settlement.cfg0 Settlement.chain0 0 Settlement.stV "s1" "0xtx1"
    { Settlement.pending0 with status := .VERIFIED, verification := some Settlement.ver0 }
    rfl rfl (by decide) (by decide)⟩

/-- C8: for every returns series with at least two samples, the regime is
the bucket of the annualized volatility — the sample standard deviation
times √365 — under the thresholds ≤0.15 LOW, ≤0.30 NORMAL, ≤0.50
ELEVATED, ≤0.80 HIGH, else EXTREME; in particular annualized volatility
exactly 0.30 classifies as NORMAL (the ≤ boundary classifies downward). -/
theorem claim_C8_volatility_regime (returns : List ℚ) (hlen : 2 ≤ returns.length) :
    (Liquidity.detectVolatilityRegime Liquidity.DEFAULT_VOLATILITY_THRESHOLDS returns =
          Liquidity.VolatilityRegime.low ↔
        Real.sqrt (Liquidity.sampleVariance returns : ℝ) * Real.sqrt 365 ≤ 15/100) ∧
      (Liquidity.detectVolatilityRegime Liquidity.DEFAULT_VOLATILITY_THRESHOLDS returns =
          Liquidity.VolatilityRegime.normal ↔
        (15/100 < Real.sqrt (Liquidity.sampleVariance returns : ℝ) * Real.sqrt 365 ∧
          Real.sqrt (Liquidity.sampleVariance returns : ℝ) * Real.sqrt 365 ≤ 30/100)) ∧
      (Liquidity.detectVolatilityRegime Liquidity.DEFAULT_VOLATILITY_THRESHOLDS returns =
          Liquidity.VolatilityRegime.elevated ↔
        (30/100 < Real.sqrt (Liquidity.sampleVariance returns : ℝ) * Real.sqrt 365 ∧
          Real.sqrt (Liquidity.sampleVariance returns : ℝ) * Real.sqrt 365 ≤ 1/2)) ∧
      (Liquidity.detectVolatilityRegime Liquidity.DEFAULT_VOLATILITY_THRESHOLDS returns =
          Liquidity.VolatilityRegime.high ↔
        (1/2 < Real.sqrt (Liquidity.sampleVariance returns : ℝ) * Real.sqrt 365 ∧
          Real.sqrt (Liquidity.sampleVariance returns : ℝ) * Real.sqrt 365 ≤ 4/5)) ∧
      (Liquidity.detectVolatilityRegime Liquidity.DEFAULT_VOLATILITY_THRESHOLDS returns =
          Liquidity.VolatilityRegime.extreme ↔
        4/5 < Real.sqrt (Liquidity.sampleVariance returns : ℝ) * Real.sqrt 365) ∧
      (Real.sqrt (Liquidity.sampleVariance returns : ℝ) * Real.sqrt 365 = 30/100 →
        Liquidity.detectVolatilityRegime Liquidity.DEFAULT_VOLATILITY_THRESHOLDS returns =
          Liquidity.VolatilityRegime.normal) := by
  have hvnn : (0:ℚ) ≤ Liquidity.sampleVariance returns := by
    unfold Liquidity.sampleVariance
    apply div_nonneg
    · apply List.sum_nonneg
      intro x hx
      simp only [List.mem_map] at hx
      obtain ⟨r, _, rfl⟩ := hx
      positivity
    · have h2 : (2:ℚ) ≤ (returns.length : ℚ) := by exact_mod_cast hlen
      linarith
  have key : ∀ c : ℚ, 0 ≤ c →
      (Real.sqrt (Liquidity.sampleVariance returns : ℝ) * Real.sqrt 365 ≤ ((c:ℚ) : ℝ) ↔
        Liquidity.sampleVariance returns * 365 ≤ c^2) := by
    intro c hc
    rw [← Real.sqrt_mul (by exact_mod_cast hvnn) 365]
    rw [Real.sqrt_le_left (by exact_mod_cast hc)]
    constructor
    · intro hx
      exact_mod_cast hx
    · intro hx
      exact_mod_cast hx
  have k1 := key (15/100) (by norm_num)
  have k2 := key (30/100) (by norm_num)
  have k3 := key (1/2) (by norm_num)
  have k4 := key (4/5) (by norm_num)
  rw [show (((15/100 : ℚ)) : ℝ) = (15/100 : ℝ) by norm_num] at k1
  rw [show (((30/100 : ℚ)) : ℝ) = (30/100 : ℝ) by norm_num] at k2
  rw [show (((1/2 : ℚ)) : ℝ) = (1/2 : ℝ) by norm_num] at k3
  rw [show (((4/5 : ℚ)) : ℝ) = (4/5 : ℝ) by norm_num] at k4
  have e12 : ((15:ℚ)/100)^2 ≤ ((30:ℚ)/100)^2 := by norm_num
  have e23 : ((30:ℚ)/100)^2 ≤ ((1:ℚ)/2)^2 := by norm_num
  have e34 : ((1:ℚ)/2)^2 ≤ ((4:ℚ)/5)^2 := by norm_num
  unfold Liquidity.detectVolatilityRegime
  rw [if_neg (by omega : ¬ returns.length < 2)]
  dsimp only [Liquidity.DEFAULT_VOLATILITY_THRESHOLDS]
  by_cases h1 : Liquidity.sampleVariance returns * 365 ≤ (15/100 : ℚ)^2
  · rw [if_pos h1]
    have hq2 : Liquidity.sampleVariance returns * 365 ≤ (30/100 : ℚ)^2 := le_trans h1 e12
    have hq3 : Liquidity.sampleVariance returns * 365 ≤ (1/2 : ℚ)^2 := le_trans hq2 e23
    have hq4 : Liquidity.sampleVariance returns * 365 ≤ (4/5 : ℚ)^2 := le_trans hq3 e34
    refine ⟨iff_of_true rfl (k1.mpr h1), ?_, ?_, ?_, ?_, ?_⟩
    · exact iff_of_false (by simp) (by rintro ⟨hlt, _⟩; exact not_lt.mpr (k1.mpr h1) hlt)
    · exact iff_of_false (by simp) (by rintro ⟨hlt, _⟩; exact not_lt.mpr (k2.mpr hq2) hlt)
    · exact iff_of_false (by simp) (by rintro ⟨hlt, _⟩; exact not_lt.mpr (k3.mpr hq3) hlt)
    · exact iff_of_false (by simp) (not_lt.mpr (k4.mpr hq4))
    · intro hv
      have hc := k1.mpr h1
      rw [hv] at hc
      norm_num at hc
  · rw [if_neg h1]
    by_cases h2 : Liquidity.sampleVariance returns * 365 ≤ (30/100 : ℚ)^2
    · rw [if_pos h2]
      have hq3 : Liquidity.sampleVariance returns * 365 ≤ (1/2 : ℚ)^2 := le_trans h2 e23
      have hq4 : Liquidity.sampleVariance returns * 365 ≤ (4/5 : ℚ)^2 := le_trans hq3 e34
      have hgt1 : (15/100 : ℝ) <
          Real.sqrt (Liquidity.sampleVariance returns : ℝ) * Real.sqrt 365 :=
        not_le.mp (fun hc => h1 (k1.mp hc))
      refine ⟨?_, iff_of_true rfl ⟨hgt1, k2.mpr h2⟩, ?_, ?_, ?_, fun _ => rfl⟩
      · exact iff_of_false (by simp) (fun hc => h1 (k1.mp hc))
      · exact iff_of_false (by simp) (by rintro ⟨hlt, _⟩; exact not_lt.mpr (k2.mpr h2) hlt)
      · exact iff_of_false (by simp) (by rintro ⟨hlt, _⟩; exact not_lt.mpr (k3.mpr hq3) hlt)
      · exact iff_of_false (by simp) (not_lt.mpr (k4.mpr hq4))
    · rw [if_neg h2]
      by_cases h3 : Liquidity.sampleVariance returns * 365 ≤ (1/2 : ℚ)^2
      · rw [if_pos h3]
        have hq4 : Liquidity.sampleVariance returns * 365 ≤ (4/5 : ℚ)^2 := le_trans h3 e34
        have hgt2 : (30/100 : ℝ) <
            Real.sqrt (Liquidity.sampleVariance returns : ℝ) * Real.sqrt 365 :=
          not_le.mp (fun hc => h2 (k2.mp hc))
        refine ⟨?_, ?_, iff_of_true rfl ⟨hgt2, k3.mpr h3⟩, ?_, ?_, ?_⟩
        · exact iff_of_false (by simp) (fun hc => h1 (k1.mp hc))
        · exact iff_of_false (by simp) (by rintro ⟨_, hle⟩; exact h2 (k2.mp hle))
        · exact iff_of_false (by simp) (by rintro ⟨hlt, _⟩; exact not_lt.mpr (k3.mpr h3) hlt)
        · exact iff_of_false (by simp) (not_lt.mpr (k4.mpr hq4))
        · intro hv
          exact absurd (k2.mp (le_of_eq hv)) h2
      · rw [if_neg h3]
        by_cases h4 : Liquidity.sampleVariance returns * 365 ≤ (4/5 : ℚ)^2
        · rw [if_pos h4]
          have hgt3 : (1/2 : ℝ) <
              Real.sqrt (Liquidity.sampleVariance returns : ℝ) * Real.sqrt 365 :=
            not_le.mp (fun hc => h3 (k3.mp hc))
          refine ⟨?_, ?_, ?_, iff_of_true rfl ⟨hgt3, k4.mpr h4⟩, ?_, ?_⟩
          · exact iff_of_false (by simp) (fun hc => h1 (k1.mp hc))
          · exact iff_of_false (by simp) (by rintro ⟨_, hle⟩; exact h2 (k2.mp hle))
          · exact iff_of_false (by simp) (by rintro ⟨_, hle⟩; exact h3 (k3.mp hle))
          · exact iff_of_false (by simp) (not_lt.mpr (k4.mpr h4))
          · intro hv
            exact absurd (k2.mp (le_of_eq hv)) h2
        · rw [if_neg h4]
          have hgt4 : (4/5 : ℝ) <
              Real.sqrt (Liquidity.sampleVariance returns : ℝ) * Real.sqrt 365 :=
            not_le.mp (fun hc => h4 (k4.mp hc))
          refine ⟨?_, ?_, ?_, ?_, iff_of_true rfl hgt4, ?_⟩
          · exact iff_of_false (by simp) (fun hc => h1 (k1.mp hc))
          · exact iff_of_false (by simp) (by rintro ⟨_, hle⟩; exact h2 (k2.mp hle))
          · exact iff_of_false (by simp) (by rintro ⟨_, hle⟩; exact h3 (k3.mp hle))
          · exact iff_of_false (by simp) (by rintro ⟨_, hle⟩; exact h4 (k4.mp hle))
          · intro hv
            exact absurd (k2.mp (le_of_eq hv)) h2

/-- Closed witness for C8: the two-sample series `[0, 1]` instantiates the
LOW-bucket equivalence. -/
theorem claim_C8_volatility_regime_witness :
    Liquidity.detectVolatilityRegime Liquidity.DEFAULT_VOLATILITY_THRESHOLDS [0, 1] =
        Liquidity.VolatilityRegime.low ↔
      Real.sqrt (Liquidity.sampleVariance [0, 1] : ℝ) * Real.sqrt 365 ≤ 15/100 :=
  (claim_C8_volatility_regime [0, 1] (by norm_num)).1

end Sentinel
